import Mathlib

/-!
Verification of the drumkit-intake validator (`create_drumkit` in `src/main.py`)
against its specification.

Modelling conventions:
* Python floats are modelled as rationals (`ℚ`); all prices in scope are small
  exact decimals, so rational arithmetic mirrors the formulas in the source.
* `datetime` values are modelled by `PyDatetime`: calendar/time fields plus an
  optional UTC offset in microseconds (`none` = naive, `some off` = aware).
* `datetime.fromisoformat` (as called on CPython ≤ 3.10, where a literal `Z`
  zone marker is not accepted by the parser itself — hence the `replace` in the
  source) is modelled by `fromisoformat` below, following the grammar
  `YYYY-MM-DD[*HH[:MM[:SS[.fff[fff]]]][(+|-)HH:MM[:SS[.ffffff]]]]` with the
  constructor range checks of `datetime` and `timezone`.  Digit pairs are
  modelled as requiring two ASCII digits.
* The storage collaborator `create_document` is an abstract function argument;
  the embedding additionally returns the list of insert calls made, so that
  side-effect claims can be stated.
* An uncaught Python exception (the naive/aware comparison `TypeError`, or a
  pydantic validation error when constructing the `Drumkit` record) is a
  distinct `Outcome`, separate from the HTTP 400 rejections.
-/

namespace Drumkits

/-- Model of a Python `datetime`: fields plus optional UTC offset in
microseconds (`tz = none` means a naive datetime). -/
structure PyDatetime where
  year : Nat
  month : Nat
  day : Nat
  hour : Nat
  minute : Nat
  second : Nat
  microsecond : Nat
  tz : Option Int
  deriving DecidableEq

/-- Gregorian leap-year test, as in Python's `calendar.isleap`. -/
def isLeap (y : Nat) : Bool :=
  y % 4 == 0 && (y % 100 != 0 || y % 400 == 0)

/-- Days in a month (month assumed 1–12), as in `datetime._days_in_month`. -/
def daysInMonth (y m : Nat) : Nat :=
  if m == 2 then (if isLeap y then 29 else 28)
  else if m == 4 || m == 6 || m == 9 || m == 11 then 30
  else 31

/-- Range checks performed by the `datetime` constructor on the date fields. -/
def validDate (y mo d : Nat) : Bool :=
  1 ≤ y && y ≤ 9999 && 1 ≤ mo && mo ≤ 12 && 1 ≤ d && d ≤ daysInMonth y mo

/-- Range checks performed by the `datetime` constructor on the time fields. -/
def validTime (h mi s us : Nat) : Bool :=
  h ≤ 23 && mi ≤ 59 && s ≤ 59 && us ≤ 999999

/-- The `datetime` constructor: validates ranges, yielding `none` on the
`ValueError` it would raise. -/
def mkDatetime (y mo d h mi s us : Nat) (tz : Option Int) : Option PyDatetime :=
  if validDate y mo d && validTime h mi s us then
    some ⟨y, mo, d, h, mi, s, us, tz⟩
  else none

/-- Days before January 1 of year `y`, as in `datetime._days_before_year`. -/
def daysBeforeYear (y : Nat) : Nat :=
  365 * (y - 1) + (y - 1) / 4 - (y - 1) / 100 + (y - 1) / 400

/-- Days in year `y` strictly before month `m`, as in
`datetime._days_before_month`. -/
def daysBeforeMonth (y m : Nat) : Nat :=
  (List.range (m - 1)).foldl (fun a i => a + daysInMonth y (i + 1)) 0

/-- Proleptic-Gregorian ordinal of the date fields, as in `datetime.toordinal`. -/
def toOrdinal (d : PyDatetime) : Nat :=
  daysBeforeYear d.year + daysBeforeMonth d.year d.month + d.day

/-- Absolute timestamp in microseconds of a datetime interpreted with UTC
offset `off` (microseconds): the quantity Python compares when ordering
datetimes. -/
def toStamp (d : PyDatetime) (off : Int) : Int :=
  ((toOrdinal d * 86400 + d.hour * 3600 + d.minute * 60 + d.second : Nat) : Int)
      * 1000000 + (d.microsecond : Int) - off

/-- Python's `dt.replace(second=0, microsecond=0)`: truncation to whole-minute
resolution, keeping the timezone. -/
def truncMin (d : PyDatetime) : PyDatetime :=
  { d with second := 0, microsecond := 0 }

/-- Python's `<` on datetimes: naive compares with naive, aware with aware (by
UTC instant); comparing naive with aware raises `TypeError`, modelled as
`none`. -/
def pyLt (a b : PyDatetime) : Option Bool :=
  match a.tz, b.tz with
  | none, none => some (decide (toStamp a 0 < toStamp b 0))
  | some x, some y => some (decide (toStamp a x < toStamp b y))
  | _, _ => none

/-! ### Model of `datetime.fromisoformat` (CPython ≤ 3.10 grammar) -/

/-- Numeric value of a list of ASCII digit characters. -/
def digitsVal (cs : List Char) : Nat :=
  cs.foldl (fun a c => a * 10 + (c.toNat - 48)) 0

/-- Consume exactly two ASCII digits from the front of the input. -/
def parse2 : List Char → Option (Nat × List Char)
  | c1 :: c2 :: rest =>
    if c1.isDigit && c2.isDigit then some ((c1.toNat - 48) * 10 + (c2.toNat - 48), rest)
    else none
  | _ => none

/-- The `YYYY-MM-DD` date portion (`_parse_isoformat_date`): exactly ten
characters, digits and dashes in the fixed positions. -/
def parseDate : List Char → Option (Nat × Nat × Nat)
  | [y1, y2, y3, y4, s1, m1, m2, s2, d1, d2] =>
    if y1.isDigit && y2.isDigit && y3.isDigit && y4.isDigit && s1 == '-' &&
        m1.isDigit && m2.isDigit && s2 == '-' && d1.isDigit && d2.isDigit then
      some (digitsVal [y1, y2, y3, y4], digitsVal [m1, m2], digitsVal [d1, d2])
    else none
  | _ => none

/-- The fractional-second tail after the dot: exactly three or six digits
(milliseconds are scaled to microseconds). -/
def parseMicro (cs : List Char) : Option Nat :=
  if cs.length == 3 && cs.all Char.isDigit then some (digitsVal cs * 1000)
  else if cs.length == 6 && cs.all Char.isDigit then some (digitsVal cs)
  else none

/-- `HH[:MM[:SS[.fff[fff]]]]` (`_parse_hh_mm_ss_ff`), consuming the whole
input. -/
def parseHMSF (cs : List Char) : Option (Nat × Nat × Nat × Nat) :=
  match parse2 cs with
  | none => none
  | some (h, r1) =>
    match r1 with
    | [] => some (h, 0, 0, 0)
    | ':' :: r2 =>
      match parse2 r2 with
      | none => none
      | some (m, r3) =>
        match r3 with
        | [] => some (h, m, 0, 0)
        | ':' :: r4 =>
          match parse2 r4 with
          | none => none
          | some (s, r5) =>
            match r5 with
            | [] => some (h, m, s, 0)
            | '.' :: r6 =>
              match parseMicro r6 with
              | none => none
              | some us => some (h, m, s, us)
            | _ => none
        | _ => none
    | _ => none

/-- The time-of-day portion with optional UTC offset (`_parse_isoformat_time`):
the substring from the first `-` (or, failing that, the first `+`) is the zone
offset, which must have length 5, 8 or 15 and passes through the `timezone`
constructor's strict ±24h bound; an all-zero offset is UTC. -/
def parseTime (ts : List Char) : Option ((Nat × Nat × Nat × Nat) × Option Int) :=
  let tzIdx : Option Nat :=
    match ts.findIdx? (· == '-') with
    | some i => some i
    | none => ts.findIdx? (· == '+')
  match tzIdx with
  | none => (parseHMSF ts).map (fun c => (c, none))
  | some i =>
    match parseHMSF (ts.take i) with
    | none => none
    | some c =>
      let tzstr := ts.drop (i + 1)
      if tzstr.length == 5 || tzstr.length == 8 || tzstr.length == 15 then
        match parseHMSF tzstr with
        | none => none
        | some (th, tm, tsec, tus) =>
          if th == 0 && tm == 0 && tsec == 0 && tus == 0 then some (c, some 0)
          else
            let sign : Int := if ts[i]? == some '-' then -1 else 1
            let off : Int := sign * (((th * 3600 + tm * 60 + tsec) * 1000000 + tus : Nat) : Int)
            if -86400000000 < off ∧ off < 86400000000 then some (c, some off)
            else none
      else none

/-- Model of `datetime.fromisoformat`: ten-character date, then (if anything
follows) one ignored separator character and the time portion.  `none` models
the `ValueError` the caller catches. -/
def fromisoformat (cs : List Char) : Option PyDatetime :=
  match parseDate (cs.take 10) with
  | none => none
  | some (y, mo, d) =>
    if cs.length == 10 then mkDatetime y mo d 0 0 0 0 none
    else
      match parseTime (cs.drop 11) with
      | none => none
      | some ((h, mi, s, us), tz) => mkDatetime y mo d h mi s us tz

/-- Python's `str.replace("Z", "+00:00")` on the release string: every capital
`Z` is replaced. -/
def replaceZ : List Char → List Char
  | [] => []
  | c :: rest =>
    if c == 'Z' then '+' :: '0' :: '0' :: ':' :: '0' :: '0' :: replaceZ rest
    else c :: replaceZ rest

/-! ### Data model (`src/schemas.py`, `src/main.py`) -/

/-- Collaborator record embedded in a drumkit (`schemas.Collaborator`). -/
structure Collaborator where
  username : String
  role : String
  share_percent : Int
  deriving DecidableEq

/-- Request body of `POST /drumkits` (`main.DrumkitCreate`), as it reaches the
handler: field values unconstrained; the pydantic `Field` bounds are the
separate predicate `structValidB`. -/
structure DrumkitCreate where
  archive_url : Option String
  preview_urls : List String
  cover_url : Option String
  title : String
  release_at : String
  description : Option String
  visibility : String
  tags : List String
  sounds_count : Int
  price_original : ℚ
  is_free : Bool
  offer_fixed : Option ℚ
  offer_percent : Option Int
  owner_username : String
  collaborators : List Collaborator
  deriving DecidableEq

/-- Persisted drumkit record (`schemas.Drumkit`). -/
structure Drumkit where
  archive_url : Option String
  preview_urls : List String
  cover_url : Option String
  title : String
  release_at : PyDatetime
  description : Option String
  visibility : String
  tags : List String
  sounds_count : Int
  price_original : ℚ
  is_free : Bool
  offer_fixed : Option ℚ
  offer_percent : Option Int
  price_final : ℚ
  owner_username : String
  collaborators : List Collaborator
  deriving DecidableEq

/-- The pydantic `Field` constraints of `main.DrumkitCreate` (structural shape
validation performed by the framework before the handler runs). -/
def structValidB (p : DrumkitCreate) : Bool :=
  decide (p.title.length ≤ 60) &&
  p.description.all (fun s => decide (s.length ≤ 500)) &&
  (p.visibility == "privado" || p.visibility == "publico" || p.visibility == "no_listado") &&
  decide (0 ≤ p.sounds_count) && decide (p.sounds_count ≤ 999) &&
  decide (1 ≤ p.price_original) && decide (p.price_original ≤ 1000) &&
  p.offer_fixed.all (fun f => decide (0 ≤ f)) &&
  p.offer_percent.all (fun n => decide (0 ≤ n) && decide (n ≤ 90)) &&
  decide (p.owner_username.length ≤ 32) &&
  p.collaborators.all (fun c =>
    decide (c.username.length ≤ 32) &&
    (c.role == "productor" || c.role == "Ingeniero de audio" || c.role == "Artista") &&
    decide (0 ≤ c.share_percent) && decide (c.share_percent ≤ 100))

/-- The pydantic `Field` constraints of `schemas.Drumkit`, checked when the
record is constructed at the end of the handler (`AwareDatetime` requires a
timezone to be present; `tags` carries only a descriptive comment, no bound). -/
def checkDrumkit (d : Drumkit) : Bool :=
  decide (d.title.length ≤ 60) &&
  d.release_at.tz.isSome &&
  d.description.all (fun s => decide (s.length ≤ 500)) &&
  (d.visibility == "privado" || d.visibility == "publico" || d.visibility == "no_listado") &&
  decide (0 ≤ d.sounds_count) && decide (d.sounds_count ≤ 999) &&
  decide (1 ≤ d.price_original) && decide (d.price_original ≤ 1000) &&
  d.offer_fixed.all (fun f => decide (0 ≤ f)) &&
  d.offer_percent.all (fun n => decide (0 ≤ n) && decide (n ≤ 90)) &&
  decide (0 ≤ d.price_final) &&
  decide (d.owner_username.length ≤ 32) &&
  d.collaborators.all (fun c =>
    decide (c.username.length ≤ 32) &&
    (c.role == "productor" || c.role == "Ingeniero de audio" || c.role == "Artista") &&
    decide (0 ≤ c.share_percent) && decide (c.share_percent ≤ 100))

/-- Rejection reasons of the handler (the five HTTP 400 details of §7). -/
inductive Rejection where
  | invalidTags
  | offerExceedsPrice
  | offerPercentTooHigh
  | invalidReleaseDate
  | releaseDateInPast
  deriving DecidableEq

/-- Observable outcome of one call of the handler.  `typeError` is the uncaught
naive/aware comparison `TypeError` of line 119; `validationError` is an
uncaught pydantic error when constructing the `Drumkit` record. -/
inductive Outcome where
  | ok (id : String)
  | rejected (r : Rejection)
  | typeError
  | validationError
  deriving DecidableEq

/-- Pricing step of the handler (`main.py` lines 95–112): the computed
`final_price` together with the `offer_fixed` / `offer_percent` values that
will be stored. -/
def pricingStep (payload : DrumkitCreate) : Except Rejection (ℚ × Option ℚ × Option Int) :=
  if payload.is_free then
    Except.ok (0, none, none)
  else
    if payload.offer_fixed.any (fun f => decide (payload.price_original ≤ f)) then
      Except.error Rejection.offerExceedsPrice
    else if payload.offer_percent.any (fun n => decide (90 < n)) then
      Except.error Rejection.offerPercentTooHigh
    else
      let final_price :=
        match payload.offer_fixed with
        | some f => payload.price_original - f
        | none =>
          match payload.offer_percent with
          | some n => payload.price_original * (1 - (n : ℚ) / 100)
          | none => payload.price_original
      Except.ok (max final_price 0, payload.offer_fixed, payload.offer_percent)

/-- Construction of the stored record (`main.py` lines 124–141). -/
def buildDoc (payload : DrumkitCreate) (client_dt : PyDatetime) (final_price : ℚ)
    (offer_fixed : Option ℚ) (offer_percent : Option Int) : Drumkit :=
  { archive_url := payload.archive_url
    preview_urls := payload.preview_urls
    cover_url := payload.cover_url
    title := payload.title
    release_at := client_dt
    description := payload.description
    visibility := payload.visibility
    tags := payload.tags
    sounds_count := payload.sounds_count
    price_original := payload.price_original
    is_free := payload.is_free
    offer_fixed := offer_fixed
    offer_percent := offer_percent
    price_final := final_price
    owner_username := payload.owner_username
    collaborators := payload.collaborators }

/-- The `POST /drumkits` handler (`main.create_drumkit`).  `now` is the ambient
`datetime.now(timezone.utc)`; `create_document` is the storage collaborator.
Returns the observable outcome together with the list of document-creation
calls made. -/
def create_drumkit (now : PyDatetime) (create_document : String → Drumkit → String)
    (payload : DrumkitCreate) : Outcome × List (String × Drumkit) :=
  if 3 < payload.tags.length ∨ ∃ t ∈ payload.tags, 15 < t.length then
    (Outcome.rejected Rejection.invalidTags, [])
  else
    match pricingStep payload with
    | Except.error r => (Outcome.rejected r, [])
    | Except.ok (final_price, offer_fixed, offer_percent) =>
      match fromisoformat (replaceZ payload.release_at.data) with
      | none => (Outcome.rejected Rejection.invalidReleaseDate, [])
      | some client_dt =>
        match pyLt (truncMin client_dt) (truncMin now) with
        | none => (Outcome.typeError, [])
        | some true => (Outcome.rejected Rejection.releaseDateInPast, [])
        | some false =>
          if checkDrumkit (buildDoc payload client_dt final_price offer_fixed offer_percent) then
            (Outcome.ok (create_document "drumkit"
                (buildDoc payload client_dt final_price offer_fixed offer_percent)),
             [("drumkit", buildDoc payload client_dt final_price offer_fixed offer_percent)])
          else (Outcome.validationError, [])

/-! ### Concrete instances used by witnesses and counterexamples -/

/-- Ambient current time for the concrete instances:
2025-06-01 12:30:45.000500 UTC (what `datetime.now(timezone.utc)` returned). -/
def now0 : PyDatetime := ⟨2025, 6, 1, 12, 30, 45, 500, some 0⟩

/-- Storage collaborator for the concrete instances: always assigns id `"id0"`. -/
def gen0 : String → Drumkit → String := fun _ _ => "id0"

/-- Parsed form of the release string `"2099-01-01T00:00:00Z"`. -/
def dtZ : PyDatetime := ⟨2099, 1, 1, 0, 0, 0, 0, some 0⟩

/-- Parsed (naive) form of the release string `"2099-01-01T00:00:00"`. -/
def dtNaive : PyDatetime := ⟨2099, 1, 1, 0, 0, 0, 0, none⟩

/-- Parsed form of the release string `"2025-06-01T12:29:00Z"`. -/
def dtPast : PyDatetime := ⟨2025, 6, 1, 12, 29, 0, 0, some 0⟩

/-- Baseline structurally valid submission: two short tags, price 100, not
free, no offers, far-future UTC release string. -/
def payloadBase : DrumkitCreate :=
  { archive_url := none
    preview_urls := []
    cover_url := none
    title := "Kit"
    release_at := "2099-01-01T00:00:00Z"
    description := none
    visibility := "publico"
    tags := ["trap", "drill"]
    sounds_count := 10
    price_original := 100
    is_free := false
    offer_fixed := none
    offer_percent := none
    owner_username := "owner"
    collaborators := [] }

/-- Submission with four tags and an unparseable release string. -/
def pTagsBadDate : DrumkitCreate :=
  { payloadBase with tags := ["a", "b", "c", "d"], release_at := "notadate" }

/-- Submission with valid tags and an unparseable release string. -/
def pBadDate : DrumkitCreate := { payloadBase with release_at := "notadate" }

/-- Submission whose release string parses as a naive datetime. -/
def pNaive : DrumkitCreate := { payloadBase with release_at := "2099-01-01T00:00:00" }

/-- Free submission that also carries (invalid) offer fields. -/
def pFree : DrumkitCreate :=
  { payloadBase with is_free := true, offer_fixed := some 150, offer_percent := some 50 }

/-- Record stored for `pFree`. -/
def docFree : Drumkit := buildDoc pFree dtZ 0 none none

/-- Non-free submission with both a fixed and a percent offer. -/
def pFixed : DrumkitCreate :=
  { payloadBase with offer_fixed := some 20, offer_percent := some 50 }

/-- Record stored for `pFixed` (price written as the handler computes it). -/
def docFixed : Drumkit :=
  buildDoc pFixed dtZ (max (pFixed.price_original - 20) 0) (some 20) (some 50)

/-- Non-free submission with only a percent offer. -/
def pPct : DrumkitCreate :=
  { payloadBase with price_original := 50, offer_percent := some 50 }

/-- Record stored for `pPct` (price written as the handler computes it). -/
def docPct : Drumkit :=
  buildDoc pPct dtZ (max (pPct.price_original * (1 - ((50 : ℤ) : ℚ) / 100)) 0) none (some 50)

/-- Submission with four tags (and everything else valid). -/
def pTags : DrumkitCreate := { payloadBase with tags := ["a", "b", "c", "d"] }

/-- Submission whose fixed offer exceeds the original price. -/
def pOverOffer : DrumkitCreate := { payloadBase with offer_fixed := some 150 }

/-- Submission whose release time is one minute before `now0`. -/
def pPast : DrumkitCreate := { payloadBase with release_at := "2025-06-01T12:29:00Z" }

/-- Submission carrying the structurally impossible `offer_percent = 91`. -/
def p91 : DrumkitCreate := { payloadBase with offer_percent := some 91 }

/-- Record stored for `payloadBase` (price written as the handler computes it). -/
def docBase : Drumkit := buildDoc payloadBase dtZ (max payloadBase.price_original 0) none none

/-- Submission whose release time falls in the same minute as `now0`. -/
def pSame : DrumkitCreate := { payloadBase with release_at := "2025-06-01T12:30:59Z" }

/-- Parsed form of the release string `"2025-06-01T12:30:59Z"`. -/
def dtSame : PyDatetime := ⟨2025, 6, 1, 12, 30, 59, 0, some 0⟩

/-- Record stored for `pSame` (price written as the handler computes it). -/
def docSame : Drumkit := buildDoc pSame dtSame (max pSame.price_original 0) none none

/-! ### Helper lemmas -/

/-- Truncation to the minute keeps the timezone. -/
theorem truncMin_tz (d : PyDatetime) : (truncMin d).tz = d.tz := rfl

/-- Every document-creation call made by the handler goes to the `"drumkit"`
collection with the record built from the pricing result and the parsed
release time. -/
theorem mem_calls (now : PyDatetime) (gen : String → Drumkit → String)
    (payload : DrumkitCreate) (c : String × Drumkit)
    (hc : c ∈ (create_drumkit now gen payload).snd) :
    ∃ fp ofv opv dt, pricingStep payload = Except.ok (fp, ofv, opv) ∧
      fromisoformat (replaceZ payload.release_at.data) = some dt ∧
      c = ("drumkit", buildDoc payload dt fp ofv opv) := by
  unfold create_drumkit at hc
  by_cases htags : 3 < payload.tags.length ∨ ∃ t ∈ payload.tags, 15 < t.length
  · rw [if_pos htags] at hc
    simp at hc
  · rw [if_neg htags] at hc
    cases hq : pricingStep payload with
    | error r => simp only [hq] at hc; simp at hc
    | ok v =>
      obtain ⟨fp, ofv, opv⟩ := v
      simp only [hq] at hc
      cases hd : fromisoformat (replaceZ payload.release_at.data) with
      | none => simp only [hd] at hc; simp at hc
      | some dt =>
        simp only [hd] at hc
        cases hl : pyLt (truncMin dt) (truncMin now) with
        | none => simp only [hl] at hc; simp at hc
        | some b =>
          cases b with
          | true => simp only [hl] at hc; simp at hc
          | false =>
            simp only [hl] at hc
            by_cases hck : checkDrumkit (buildDoc payload dt fp ofv opv) = true
            · rw [if_pos hck] at hc
              simp at hc
              exact ⟨fp, ofv, opv, dt, rfl, rfl, by rw [hc]⟩
            · rw [if_neg hck] at hc
              simp at hc

/-- Every rejection is the tag error, a pricing error, or one of the two
release-date errors. -/
theorem fst_rejected (now : PyDatetime) (gen : String → Drumkit → String)
    (payload : DrumkitCreate) (r : Rejection)
    (h : (create_drumkit now gen payload).fst = Outcome.rejected r) :
    r = Rejection.invalidTags ∨ pricingStep payload = Except.error r ∨
      r = Rejection.invalidReleaseDate ∨ r = Rejection.releaseDateInPast := by
  unfold create_drumkit at h
  by_cases htags : 3 < payload.tags.length ∨ ∃ t ∈ payload.tags, 15 < t.length
  · rw [if_pos htags] at h
    simp at h
    exact Or.inl h.symm
  · rw [if_neg htags] at h
    cases hq : pricingStep payload with
    | error r0 =>
      simp only [hq] at h
      simp at h
      exact Or.inr (Or.inl (by rw [h]))
    | ok v =>
      obtain ⟨fp, ofv, opv⟩ := v
      simp only [hq] at h
      cases hd : fromisoformat (replaceZ payload.release_at.data) with
      | none =>
        simp only [hd] at h
        simp at h
        exact Or.inr (Or.inr (Or.inl h.symm))
      | some dt =>
        simp only [hd] at h
        cases hl : pyLt (truncMin dt) (truncMin now) with
        | none => simp only [hl] at h; simp at h
        | some b =>
          cases b with
          | true =>
            simp only [hl] at h
            simp at h
            exact Or.inr (Or.inr (Or.inr h.symm))
          | false =>
            simp only [hl] at h
            by_cases hck : checkDrumkit (buildDoc payload dt fp ofv opv) = true
            · rw [if_pos hck] at h; simp at h
            · rw [if_neg hck] at h; simp at h

/-- Shape of a successful pricing step: nonnegative final price, and offer
fields either dropped or passed through from the payload. -/
theorem pricingStep_ok_shape (payload : DrumkitCreate) (fp : ℚ) (ofv : Option ℚ)
    (opv : Option Int) (hp : pricingStep payload = Except.ok (fp, ofv, opv)) :
    0 ≤ fp ∧ (ofv = none ∨ ofv = payload.offer_fixed) ∧
      (opv = none ∨ opv = payload.offer_percent) := by
  unfold pricingStep at hp
  by_cases hfree : payload.is_free = true
  · rw [if_pos hfree] at hp
    simp at hp
    obtain ⟨h1, h2, h3⟩ := hp
    exact ⟨h1 ▸ le_refl 0, Or.inl h2.symm, Or.inl h3.symm⟩
  · rw [if_neg hfree] at hp
    by_cases h1 : payload.offer_fixed.any (fun f => decide (payload.price_original ≤ f)) = true
    · rw [if_pos h1] at hp; simp at hp
    · rw [if_neg h1] at hp
      by_cases h2 : payload.offer_percent.any (fun n => decide (90 < n)) = true
      · rw [if_pos h2] at hp; simp at hp
      · rw [if_neg h2] at hp
        simp at hp
        obtain ⟨hfp, hof, hop⟩ := hp
        exact ⟨hfp ▸ le_max_right _ 0, Or.inr hof.symm, Or.inr hop.symm⟩

/-- Evaluation of one full successful run of the handler. -/
theorem create_drumkit_run (now : PyDatetime) (gen : String → Drumkit → String)
    (payload : DrumkitCreate) (fp : ℚ) (ofv : Option ℚ) (opv : Option Int)
    (dt : PyDatetime)
    (ht : ¬(3 < payload.tags.length ∨ ∃ t ∈ payload.tags, 15 < t.length))
    (hp : pricingStep payload = Except.ok (fp, ofv, opv))
    (hd : fromisoformat (replaceZ payload.release_at.data) = some dt)
    (hl : pyLt (truncMin dt) (truncMin now) = some false)
    (hck : checkDrumkit (buildDoc payload dt fp ofv opv) = true) :
    create_drumkit now gen payload =
      (Outcome.ok (gen "drumkit" (buildDoc payload dt fp ofv opv)),
       [("drumkit", buildDoc payload dt fp ofv opv)]) := by
  unfold create_drumkit
  rw [if_neg ht]
  simp only [hp, hd, hl]
  rw [if_pos hck]

/-- A record built from a structurally valid payload, a successful pricing
step and an aware release time passes the stored-record validation. -/
theorem checkDrumkit_of_structValid (payload : DrumkitCreate) (fp : ℚ)
    (ofv : Option ℚ) (opv : Option Int) (dt : PyDatetime)
    (hs : structValidB payload = true)
    (hp : pricingStep payload = Except.ok (fp, ofv, opv))
    (ha : dt.tz.isSome = true) :
    checkDrumkit (buildDoc payload dt fp ofv opv) = true := by
  obtain ⟨hfp, hof, hop⟩ := pricingStep_ok_shape payload fp ofv opv hp
  simp only [structValidB, Bool.and_eq_true, and_assoc] at hs
  obtain ⟨h1, h2, h3, h4, h5, h6, h7, h8, h9, h10, h11⟩ := hs
  simp only [checkDrumkit, buildDoc, Bool.and_eq_true, and_assoc]
  refine ⟨h1, ha, h2, h3, h4, h5, h6, h7, ?_, ?_, by simpa using hfp, h10, h11⟩
  · rcases hof with rfl | rfl
    · rfl
    · exact h8
  · rcases hop with rfl | rfl
    · rfl
    · exact h9

/-- Unfolding of the pricing step for a non-free submission. -/
theorem pricingStep_nonfree (payload : DrumkitCreate) (hfree : payload.is_free = false) :
    pricingStep payload =
      if payload.offer_fixed.any (fun f => decide (payload.price_original ≤ f)) then
        Except.error Rejection.offerExceedsPrice
      else if payload.offer_percent.any (fun n => decide (90 < n)) then
        Except.error Rejection.offerPercentTooHigh
      else
        Except.ok (max (match payload.offer_fixed with
            | some f => payload.price_original - f
            | none =>
              match payload.offer_percent with
              | some n => payload.price_original * (1 - (n : ℚ) / 100)
              | none => payload.price_original) 0,
          payload.offer_fixed, payload.offer_percent) := by
  unfold pricingStep
  rw [if_neg (by rw [hfree]; simp)]

/-! ### Claims -/

/-- C5: a submission with more than 3 tags, or any tag longer than 15
characters, is rejected with `InvalidTags` and nothing is stored — for every
such submission, whatever its other fields (so the tag check wins over any
pricing or release-date failure also present). -/
theorem claim_C5 (now : PyDatetime) (gen : String → Drumkit → String)
    (payload : DrumkitCreate)
    (h : 3 < payload.tags.length ∨ ∃ t ∈ payload.tags, 15 < t.length) :
    create_drumkit now gen payload = (Outcome.rejected Rejection.invalidTags, []) := by
  unfold create_drumkit
  rw [if_pos h]

/-- Witness for C5: four tags (with an unparseable release date also present)
are rejected with `InvalidTags`. -/
theorem claim_C5_witness :
    (3 < pTags.tags.length ∨ ∃ t ∈ pTags.tags, 15 < t.length) ∧
    create_drumkit now0 gen0 pTags = (Outcome.rejected Rejection.invalidTags, []) :=
  ⟨by decide, claim_C5 now0 gen0 pTags (by decide)⟩

/-- C6: a non-free submission passing the tag check whose `offer_fixed` is at
least `price_original` is rejected with `OfferExceedsPrice`. -/
theorem claim_C6 (now : PyDatetime) (gen : String → Drumkit → String)
    (payload : DrumkitCreate) (f : ℚ)
    (ht : ¬(3 < payload.tags.length ∨ ∃ t ∈ payload.tags, 15 < t.length))
    (hfree : payload.is_free = false)
    (hf : payload.offer_fixed = some f)
    (hge : payload.price_original ≤ f) :
    create_drumkit now gen payload = (Outcome.rejected Rejection.offerExceedsPrice, []) := by
  have hp : pricingStep payload = Except.error Rejection.offerExceedsPrice := by
    rw [pricingStep_nonfree payload hfree, hf]
    simp [hge]
  unfold create_drumkit
  rw [if_neg ht, hp]

/-- Witness for C6: price 100 with fixed offer 150 is rejected with
`OfferExceedsPrice`. -/
theorem claim_C6_witness :
    pOverOffer.price_original ≤ 150 ∧
    create_drumkit now0 gen0 pOverOffer = (Outcome.rejected Rejection.offerExceedsPrice, []) :=
  ⟨by decide, claim_C6 now0 gen0 pOverOffer 150 (by decide) rfl rfl (by decide)⟩

/-- C2: for a free submission the computed `price_final` is 0 and the stored
record omits both offer fields, whatever offer values were supplied — and the
supplied offers are never validated (no offer rejection can occur). -/
theorem claim_C2 (now : PyDatetime) (gen : String → Drumkit → String)
    (payload : DrumkitCreate) (h : payload.is_free = true) :
    ((create_drumkit now gen payload).fst ≠ Outcome.rejected Rejection.offerExceedsPrice ∧
      (create_drumkit now gen payload).fst ≠ Outcome.rejected Rejection.offerPercentTooHigh) ∧
    ∀ c ∈ (create_drumkit now gen payload).snd,
      c.2.price_final = 0 ∧ c.2.offer_fixed = none ∧ c.2.offer_percent = none := by
  have hp : pricingStep payload = Except.ok (0, none, none) := by
    unfold pricingStep
    rw [if_pos h]
  refine ⟨⟨?_, ?_⟩, ?_⟩
  · intro heq
    rcases fst_rejected now gen payload _ heq with h1 | h1 | h1 | h1
    · exact absurd h1 (by simp)
    · rw [hp] at h1
      exact absurd h1 (by simp)
    · exact absurd h1 (by simp)
    · exact absurd h1 (by simp)
  · intro heq
    rcases fst_rejected now gen payload _ heq with h1 | h1 | h1 | h1
    · exact absurd h1 (by simp)
    · rw [hp] at h1
      exact absurd h1 (by simp)
    · exact absurd h1 (by simp)
    · exact absurd h1 (by simp)
  · intro c hc
    obtain ⟨fp, ofv, opv, dt, hq, hd, hceq⟩ := mem_calls now gen payload c hc
    rw [hp] at hq
    simp at hq
    obtain ⟨h1, h2, h3⟩ := hq
    rw [hceq]
    simp [buildDoc, ← h1, ← h2, ← h3]

/-- Witness for C2: a free submission carrying `offer_fixed = 150` (which would
be invalid if validated) and `offer_percent = 50` stores price 0 and no offers,
and is not rejected with `OfferExceedsPrice`. -/
theorem claim_C2_witness :
    (create_drumkit now0 gen0 pFree).fst ≠ Outcome.rejected Rejection.offerExceedsPrice ∧
    (docFree.price_final = 0 ∧ docFree.offer_fixed = none ∧ docFree.offer_percent = none) :=
  ⟨(claim_C2 now0 gen0 pFree rfl).1.1,
   (claim_C2 now0 gen0 pFree rfl).2 ("drumkit", docFree) (by decide)⟩

/-- Value computed by a successful non-free pricing step: the discount formula
clamped at 0, with both offer fields passed through. -/
theorem pricingStep_ok_val (payload : DrumkitCreate) (fp : ℚ) (ofv : Option ℚ)
    (opv : Option Int) (hfree : payload.is_free = false)
    (hp : pricingStep payload = Except.ok (fp, ofv, opv)) :
    fp = max (match payload.offer_fixed with
      | some f => payload.price_original - f
      | none =>
        match payload.offer_percent with
        | some n => payload.price_original * (1 - (n : ℚ) / 100)
        | none => payload.price_original) 0 ∧
    ofv = payload.offer_fixed ∧ opv = payload.offer_percent := by
  rw [pricingStep_nonfree payload hfree] at hp
  by_cases hb1 : payload.offer_fixed.any (fun f => decide (payload.price_original ≤ f)) = true
  · rw [if_pos hb1] at hp
    simp at hp
  · rw [if_neg hb1] at hp
    by_cases hb2 : payload.offer_percent.any (fun n => decide (90 < n)) = true
    · rw [if_pos hb2] at hp
      simp at hp
    · rw [if_neg hb2] at hp
      simp at hp
      exact ⟨hp.1.symm, hp.2.1.symm, hp.2.2.symm⟩

/-- C3: for a non-free submission with `offer_fixed < price_original`, every
stored record has `price_final = price_original - offer_fixed` (the clamp is
inert), even when `offer_percent` is also present. -/
theorem claim_C3 (now : PyDatetime) (gen : String → Drumkit → String)
    (payload : DrumkitCreate) (f : ℚ)
    (hfree : payload.is_free = false)
    (hf : payload.offer_fixed = some f)
    (hlt : f < payload.price_original) :
    ∀ c ∈ (create_drumkit now gen payload).snd,
      c.2.price_final = payload.price_original - f := by
  intro c hc
  obtain ⟨fp, ofv, opv, dt, hq, hd, hceq⟩ := mem_calls now gen payload c hc
  obtain ⟨hfp, -, -⟩ := pricingStep_ok_val payload fp ofv opv hfree hq
  rw [hf] at hfp
  rw [hceq]
  have hmax : max (payload.price_original - f) 0 = payload.price_original - f :=
    max_eq_left (by linarith)
  simp only [buildDoc]
  rw [hfp, hmax]

/-- Witness for C3: price 100, fixed offer 20 and percent offer 50 both
present: the stored price is 80 (the percent offer is ignored). -/
theorem claim_C3_witness :
    pFixed.offer_fixed = some 20 ∧ (20 : ℚ) < pFixed.price_original ∧
    pFixed.offer_percent = some 50 ∧
    docFixed.price_final = pFixed.price_original - 20 := by
  have hp : pricingStep pFixed =
      Except.ok (max (pFixed.price_original - 20) 0, some 20, some 50) := by
    rw [pricingStep_nonfree pFixed rfl]
    exact rfl
  have hck : checkDrumkit docFixed = true :=
    checkDrumkit_of_structValid pFixed _ _ _ dtZ (by decide) hp rfl
  have hrun := create_drumkit_run now0 gen0 pFixed _ _ _ dtZ (by decide) hp
    (by decide) (by decide) hck
  exact ⟨rfl, by decide, rfl,
    claim_C3 now0 gen0 pFixed 20 rfl rfl (by decide) ("drumkit", docFixed)
      (by rw [hrun]; exact List.mem_singleton.mpr rfl)⟩

/-- C4: for a non-free submission without `offer_fixed`, every stored record
has `price_final = price_original * (1 - offer_percent/100)` clamped at 0 when
`offer_percent` is present, and `price_final = price_original` when neither
offer field is present. -/
theorem claim_C4 (now : PyDatetime) (gen : String → Drumkit → String)
    (payload : DrumkitCreate)
    (hfree : payload.is_free = false)
    (hnone : payload.offer_fixed = none)
    (hpo : 1 ≤ payload.price_original) :
    ∀ c ∈ (create_drumkit now gen payload).snd,
      c.2.price_final =
        match payload.offer_percent with
        | some n => max (payload.price_original * (1 - (n : ℚ) / 100)) 0
        | none => payload.price_original := by
  intro c hc
  obtain ⟨fp, ofv, opv, dt, hq, hd, hceq⟩ := mem_calls now gen payload c hc
  obtain ⟨hfp, -, -⟩ := pricingStep_ok_val payload fp ofv opv hfree hq
  rw [hnone] at hfp
  rw [hceq]
  simp only [buildDoc]
  rw [hfp]
  cases hpct : payload.offer_percent with
  | none =>
    simp only []
    exact max_eq_left (by linarith)
  | some n => rfl

/-- Witness for C4: price 50 with percent offer 50 stores price 25. -/
theorem claim_C4_witness :
    pPct.offer_fixed = none ∧ pPct.offer_percent = some 50 ∧ docPct.price_final = 25 := by
  have hp : pricingStep pPct =
      Except.ok (max (pPct.price_original * (1 - ((50 : ℤ) : ℚ) / 100)) 0, none, some 50) := by
    rw [pricingStep_nonfree pPct rfl]
    exact rfl
  have hck : checkDrumkit docPct = true :=
    checkDrumkit_of_structValid pPct _ _ _ dtZ (by decide) hp rfl
  have hrun := create_drumkit_run now0 gen0 pPct _ _ _ dtZ (by decide) hp
    (by decide) (by decide) hck
  have h := claim_C4 now0 gen0 pPct rfl rfl (by decide) ("drumkit", docPct)
    (by rw [hrun]; exact List.mem_singleton.mpr rfl)
  have hv : (50 : ℚ) * (1 - ((50 : ℤ) : ℚ) / 100) = 25 := by push_cast; norm_num
  refine ⟨rfl, rfl, h.trans ?_⟩
  show max ((50 : ℚ) * (1 - ((50 : ℤ) : ℚ) / 100)) 0 = 25
  rw [hv]
  exact max_eq_left (by norm_num)

/-- C10: for a non-free submission satisfying the validated bounds
(`price_original` in 1–1000, any `offer_fixed` strictly below it, any
`offer_percent` at most 90), every stored `price_final` is strictly positive
and equals the unclamped discount formula: the final `max` clamp never changes
the computed value. -/
theorem claim_C10 (now : PyDatetime) (gen : String → Drumkit → String)
    (payload : DrumkitCreate)
    (hfree : payload.is_free = false)
    (h1 : 1 ≤ payload.price_original) (h2 : payload.price_original ≤ 1000)
    (hfx : ∀ f, payload.offer_fixed = some f → f < payload.price_original)
    (hpc : ∀ n, payload.offer_percent = some n → n ≤ 90) :
    ∀ c ∈ (create_drumkit now gen payload).snd,
      0 < c.2.price_final ∧
      c.2.price_final =
        match payload.offer_fixed with
        | some f => payload.price_original - f
        | none =>
          match payload.offer_percent with
          | some n => payload.price_original * (1 - (n : ℚ) / 100)
          | none => payload.price_original := by
  intro c hc
  obtain ⟨fp, ofv, opv, dt, hq, hd, hceq⟩ := mem_calls now gen payload c hc
  obtain ⟨hfp, -, -⟩ := pricingStep_ok_val payload fp ofv opv hfree hq
  have hpos : 0 < (match payload.offer_fixed with
      | some f => payload.price_original - f
      | none =>
        match payload.offer_percent with
        | some n => payload.price_original * (1 - (n : ℚ) / 100)
        | none => payload.price_original) := by
    cases hof : payload.offer_fixed with
    | some f =>
      have := hfx f hof
      simp only []
      linarith
    | none =>
      cases hpt : payload.offer_percent with
      | some n =>
        have hnq : (n : ℚ) ≤ 90 := by exact_mod_cast hpc n hpt
        simp only []
        have hfrac : 0 < 1 - (n : ℚ) / 100 := by linarith
        exact mul_pos (by linarith) hfrac
      | none =>
        simp only []
        linarith
  rw [hceq]
  simp only [buildDoc]
  rw [hfp, max_eq_left hpos.le]
  exact ⟨hpos, rfl⟩

/-- Witness for C10: price 100 with fixed offer 20 (and percent offer 50)
stores the strictly positive unclamped price 80. -/
theorem claim_C10_witness :
    pFixed.is_free = false ∧ 1 ≤ pFixed.price_original ∧
    0 < docFixed.price_final ∧ docFixed.price_final = pFixed.price_original - 20 := by
  have hp : pricingStep pFixed =
      Except.ok (max (pFixed.price_original - 20) 0, some 20, some 50) := by
    rw [pricingStep_nonfree pFixed rfl]
    exact rfl
  have hck : checkDrumkit docFixed = true :=
    checkDrumkit_of_structValid pFixed _ _ _ dtZ (by decide) hp rfl
  have hrun := create_drumkit_run now0 gen0 pFixed _ _ _ dtZ (by decide) hp
    (by decide) (by decide) hck
  have h := claim_C10 now0 gen0 pFixed rfl (by decide) (by decide)
    (fun f hf => by
      have h20 := Option.some_inj.mp (show (some (20 : ℚ)) = some f from hf)
      rw [← h20]
      decide)
    (fun n hn => by
      have h50 := Option.some_inj.mp (show (some (50 : ℤ)) = some n from hn)
      rw [← h50]
      decide)
    ("drumkit", docFixed) (by rw [hrun]; exact List.mem_singleton.mpr rfl)
  exact ⟨rfl, by decide, h.1, h.2⟩

/-- C1 as stated is false on the code: this submission's `release_at` fails to
parse (as anything, in particular as an aware timestamp), yet the outcome is
`InvalidTags`, not `InvalidReleaseDate`, because the tag check runs first. -/
theorem claim_C1_counterexample :
    fromisoformat (replaceZ ("notadate".data)) = none ∧
    create_drumkit now0 gen0 pTagsBadDate = (Outcome.rejected Rejection.invalidTags, []) ∧
    Outcome.rejected Rejection.invalidTags ≠ Outcome.rejected Rejection.invalidReleaseDate := by
  refine ⟨by decide, ?_, by decide⟩
  unfold create_drumkit
  rw [if_pos (by decide)]

/-- C1 (amended): for a submission passing the tag and pricing checks, a
`release_at` that fails to parse as a timestamp at all is rejected with
`InvalidReleaseDate`; a `release_at` that parses as a naive (offset-free)
timestamp is instead an uncaught naive/aware comparison type error; a trailing
literal `Z` zone marker is accepted as UTC. -/
theorem claim_C1_amended :
    (∀ now gen payload,
      ¬(3 < payload.tags.length ∨ ∃ t ∈ payload.tags, 15 < t.length) →
      (∃ v, pricingStep payload = Except.ok v) →
      fromisoformat (replaceZ payload.release_at.data) = none →
      create_drumkit now gen payload = (Outcome.rejected Rejection.invalidReleaseDate, [])) ∧
    (∀ now gen payload client_dt k,
      ¬(3 < payload.tags.length ∨ ∃ t ∈ payload.tags, 15 < t.length) →
      (∃ v, pricingStep payload = Except.ok v) →
      fromisoformat (replaceZ payload.release_at.data) = some client_dt →
      client_dt.tz = none → now.tz = some k →
      create_drumkit now gen payload = (Outcome.typeError, [])) ∧
    (∃ dt, fromisoformat (replaceZ ("2099-01-01T00:00:00Z".data)) = some dt ∧ dt.tz = some 0) := by
  refine ⟨?_, ?_, ⟨dtZ, by decide, rfl⟩⟩
  · intro now gen payload ht hex hd
    obtain ⟨⟨fp, ofv, opv⟩, hp⟩ := hex
    unfold create_drumkit
    rw [if_neg ht]
    simp only [hp, hd]
  · intro now gen payload client_dt k ht hex hd hna hk
    obtain ⟨⟨fp, ofv, opv⟩, hp⟩ := hex
    have hl : pyLt (truncMin client_dt) (truncMin now) = none := by
      unfold pyLt
      rw [truncMin_tz, truncMin_tz, hna, hk]
    unfold create_drumkit
    rw [if_neg ht]
    simp only [hp, hd, hl]

/-- Witness for the amended C1: `"notadate"` is rejected with
`InvalidReleaseDate`; the naive string `"2099-01-01T00:00:00"` ends in the
uncaught type error instead. -/
theorem claim_C1_witness :
    fromisoformat (replaceZ pBadDate.release_at.data) = none ∧
    create_drumkit now0 gen0 pBadDate = (Outcome.rejected Rejection.invalidReleaseDate, []) ∧
    create_drumkit now0 gen0 pNaive = (Outcome.typeError, []) := by
  have hp : pricingStep pBadDate = Except.ok (max pBadDate.price_original 0, none, none) := by
    rw [pricingStep_nonfree pBadDate rfl]
    exact rfl
  have hp2 : pricingStep pNaive = Except.ok (max pNaive.price_original 0, none, none) := by
    rw [pricingStep_nonfree pNaive rfl]
    exact rfl
  refine ⟨by decide, ?_, ?_⟩
  · exact claim_C1_amended.1 now0 gen0 pBadDate (by decide) ⟨_, hp⟩ (by decide)
  · exact claim_C1_amended.2.1 now0 gen0 pNaive dtNaive 0 (by decide) ⟨_, hp2⟩ (by decide) rfl rfl

/-- C7: for a submission that passes the earlier checks and whose `release_at`
parses as an aware timestamp, if its minute-truncated value is strictly before
the minute-truncated current UTC time it is rejected with `ReleaseDateInPast`;
otherwise (same minute or later) it is accepted and stored. -/
theorem claim_C7 (now : PyDatetime) (gen : String → Drumkit → String)
    (payload : DrumkitCreate) (fp : ℚ) (ofv : Option ℚ) (opv : Option Int)
    (client_dt : PyDatetime) (off : Int)
    (hs : structValidB payload = true)
    (ht : ¬(3 < payload.tags.length ∨ ∃ t ∈ payload.tags, 15 < t.length))
    (hp : pricingStep payload = Except.ok (fp, ofv, opv))
    (hd : fromisoformat (replaceZ payload.release_at.data) = some client_dt)
    (ha : client_dt.tz = some off)
    (hn : now.tz = some 0) :
    (toStamp (truncMin client_dt) off < toStamp (truncMin now) 0 →
      create_drumkit now gen payload = (Outcome.rejected Rejection.releaseDateInPast, [])) ∧
    (toStamp (truncMin now) 0 ≤ toStamp (truncMin client_dt) off →
      create_drumkit now gen payload =
        (Outcome.ok (gen "drumkit" (buildDoc payload client_dt fp ofv opv)),
         [("drumkit", buildDoc payload client_dt fp ofv opv)])) := by
  have hlt : pyLt (truncMin client_dt) (truncMin now) =
      some (decide (toStamp (truncMin client_dt) off < toStamp (truncMin now) 0)) := by
    unfold pyLt
    rw [truncMin_tz, truncMin_tz, ha, hn]
  constructor
  · intro hbefore
    unfold create_drumkit
    rw [if_neg ht]
    simp only [hp, hd, hlt, decide_eq_true hbefore]
  · intro hge
    have hfalse : decide (toStamp (truncMin client_dt) off < toStamp (truncMin now) 0) = false :=
      decide_eq_false (not_lt.mpr hge)
    have hck : checkDrumkit (buildDoc payload client_dt fp ofv opv) = true :=
      checkDrumkit_of_structValid payload fp ofv opv client_dt hs hp (by rw [ha]; rfl)
    exact create_drumkit_run now gen payload fp ofv opv client_dt ht hp hd
      (by rw [hlt, hfalse]) hck

/-- Witness for C7: with current time 12:30:45, release 12:29:00 (earlier
minute) is rejected, while release 12:30:59 (same minute) is accepted and
stored. -/
theorem claim_C7_witness :
    create_drumkit now0 gen0 pPast = (Outcome.rejected Rejection.releaseDateInPast, []) ∧
    create_drumkit now0 gen0 pSame =
      (Outcome.ok (gen0 "drumkit" docSame), [("drumkit", docSame)]) := by
  have hpP : pricingStep pPast = Except.ok (max pPast.price_original 0, none, none) := by
    rw [pricingStep_nonfree pPast rfl]
    exact rfl
  have hpS : pricingStep pSame = Except.ok (max pSame.price_original 0, none, none) := by
    rw [pricingStep_nonfree pSame rfl]
    exact rfl
  constructor
  · exact (claim_C7 now0 gen0 pPast _ _ _ dtPast 0 (by decide) (by decide) hpP
      (by decide) rfl rfl).1 (by decide)
  · exact (claim_C7 now0 gen0 pSame _ _ _ dtSame 0 (by decide) (by decide) hpS
      (by decide) rfl rfl).2 (by decide)

/-- C8: the handler either makes exactly one document-creation call, to the
fixed collection `"drumkit"`, and returns the identifier that call generated —
or it fails (rejection or uncaught error) and makes no call at all. -/
theorem claim_C8 (now : PyDatetime) (gen : String → Drumkit → String)
    (payload : DrumkitCreate) :
    (∃ doc, create_drumkit now gen payload =
        (Outcome.ok (gen "drumkit" doc), [("drumkit", doc)])) ∨
    ((create_drumkit now gen payload).snd = [] ∧
      ((∃ r, (create_drumkit now gen payload).fst = Outcome.rejected r) ∨
        (create_drumkit now gen payload).fst = Outcome.typeError ∨
        (create_drumkit now gen payload).fst = Outcome.validationError)) := by
  unfold create_drumkit
  by_cases htags : 3 < payload.tags.length ∨ ∃ t ∈ payload.tags, 15 < t.length
  · rw [if_pos htags]
    exact Or.inr ⟨rfl, Or.inl ⟨_, rfl⟩⟩
  · rw [if_neg htags]
    cases hq : pricingStep payload with
    | error r =>
      dsimp only
      exact Or.inr ⟨rfl, Or.inl ⟨r, rfl⟩⟩
    | ok v =>
      obtain ⟨fp, ofv, opv⟩ := v
      dsimp only
      cases hd : fromisoformat (replaceZ payload.release_at.data) with
      | none =>
        dsimp only
        exact Or.inr ⟨rfl, Or.inl ⟨_, rfl⟩⟩
      | some dt =>
        dsimp only
        cases hl : pyLt (truncMin dt) (truncMin now) with
        | none =>
          dsimp only
          exact Or.inr ⟨rfl, Or.inr (Or.inl rfl)⟩
        | some b =>
          cases b with
          | true =>
            dsimp only
            exact Or.inr ⟨rfl, Or.inl ⟨_, rfl⟩⟩
          | false =>
            dsimp only
            by_cases hck : checkDrumkit (buildDoc payload dt fp ofv opv) = true
            · rw [if_pos hck]
              exact Or.inl ⟨_, rfl⟩
            · rw [if_neg hck]
              exact Or.inr ⟨rfl, Or.inr (Or.inr rfl)⟩

/-- C9: under the structural bound `offer_percent ≤ 90`, the
`OfferPercentTooHigh` rejection is unreachable; yet the check is present in the
code with the 90 bound unchanged: any non-free submission reaching it with
`offer_percent > 90` is rejected with `OfferPercentTooHigh`. -/
theorem claim_C9 :
    (∀ now gen payload, structValidB payload = true →
      (create_drumkit now gen payload).fst ≠ Outcome.rejected Rejection.offerPercentTooHigh) ∧
    (∀ now gen payload n,
      ¬(3 < payload.tags.length ∨ ∃ t ∈ payload.tags, 15 < t.length) →
      payload.is_free = false →
      (∀ f, payload.offer_fixed = some f → f < payload.price_original) →
      payload.offer_percent = some n → 90 < n →
      create_drumkit now gen payload = (Outcome.rejected Rejection.offerPercentTooHigh, [])) := by
  constructor
  · intro now gen payload hs heq
    rcases fst_rejected now gen payload _ heq with h1 | h1 | h1 | h1
    · exact absurd h1 (by simp)
    · simp only [structValidB, Bool.and_eq_true, and_assoc] at hs
      obtain ⟨-, -, -, -, -, -, -, -, h9, -, -⟩ := hs
      unfold pricingStep at h1
      by_cases hfree : payload.is_free = true
      · rw [if_pos hfree] at h1
        simp at h1
      · rw [if_neg hfree] at h1
        by_cases hb1 : payload.offer_fixed.any (fun f => decide (payload.price_original ≤ f)) = true
        · rw [if_pos hb1] at h1
          simp at h1
        · rw [if_neg hb1] at h1
          by_cases hb2 : payload.offer_percent.any (fun n => decide (90 < n)) = true
          · cases hpv : payload.offer_percent with
            | none => rw [hpv] at hb2; simp at hb2
            | some n =>
              rw [hpv] at hb2 h9
              simp at hb2 h9
              omega
          · rw [if_neg hb2] at h1
            simp at h1
    · exact absurd h1 (by simp)
    · exact absurd h1 (by simp)
  · intro now gen payload n ht hfree hfx hpv h90
    have hb1 : payload.offer_fixed.any (fun f => decide (payload.price_original ≤ f)) = false := by
      cases hof : payload.offer_fixed with
      | none => rfl
      | some f => simp [(hfx f hof).not_le]
    have hp : pricingStep payload = Except.error Rejection.offerPercentTooHigh := by
      rw [pricingStep_nonfree payload hfree, hb1, hpv]
      simp [h90]
    unfold create_drumkit
    rw [if_neg ht, hp]

/-- Witness for C9: the structurally valid baseline is never rejected with
`OfferPercentTooHigh`, while the (structurally impossible) `offer_percent = 91`
does trip the defensive check. -/
theorem claim_C9_witness :
    (create_drumkit now0 gen0 payloadBase).fst ≠ Outcome.rejected Rejection.offerPercentTooHigh ∧
    create_drumkit now0 gen0 p91 = (Outcome.rejected Rejection.offerPercentTooHigh, []) :=
  ⟨claim_C9.1 now0 gen0 payloadBase (by decide),
   claim_C9.2 now0 gen0 p91 91 (by decide) rfl
     (fun f hf => absurd hf (by simp [p91, payloadBase]))
     rfl (by decide)⟩

end Drumkits
